import Mathlib

/-!
Verification development for the Noni live bot (`bot.py`): a shallow
embedding of the live-status reconciliation engine — the `live_state`
session-marker table, the per-subject reconciliation step of the
`check_live` timer loop, the token cache of `TwitchAPI._get_token`, and
the name resolution of `TwitchAPI.resolve_user` — together with theorems
settling the specification's claims about them.
-/

namespace NoniBot

/-! ### The `live_state` table (session markers)

`live_state` is keyed by `twitch_id` (primary key) with a nullable
`stream_id` column (the column was added by `ALTER TABLE ... ADD COLUMN`,
so rows written by older revisions can hold NULL).  We model the table as
an association list from `twitch_id` to the stored `stream_id` value
(`Option String`, `none` being SQL NULL). -/

abbrev DB := List (String × Option String)

/-- Lookup of the row for a key (SQL `SELECT ... WHERE twitch_id=%s`). -/
def dbLookup (db : DB) (t : String) : Option (Option String) :=
  match db with
  | [] => none
  | (k, v) :: rest => if t = k then some v else dbLookup rest t

/-- Removal of every row with the given key (SQL `DELETE ... WHERE twitch_id=%s`). -/
def dbDelete (db : DB) (t : String) : DB :=
  match db with
  | [] => []
  | (k, v) :: rest => if k = t then dbDelete rest t else (k, v) :: dbDelete rest t

/-- `db_get_stream_id`: returns the stored stream id if the row exists and
the value is truthy (Python: `rows[0]["stream_id"] if rows and
rows[0]["stream_id"] else None` — NULL and the empty string are falsy). -/
def db_get_stream_id (db : DB) (tid : String) : Option String :=
  match dbLookup db tid with
  | some (some s) => if s = "" then none else some s
  | _ => none

/-- `db_set_stream_id`: SQL upsert (`INSERT ... ON CONFLICT (twitch_id) DO
UPDATE SET stream_id=EXCLUDED.stream_id`), encoded as replace-the-row. -/
def db_set_stream_id (db : DB) (tid sid : String) : DB :=
  (tid, some sid) :: dbDelete db tid

/-- `db_clear_live`: SQL `DELETE FROM live_state WHERE twitch_id=%s`. -/
def db_clear_live (db : DB) (tid : String) : DB :=
  dbDelete db tid

/-- `already_announced(twitch_user_id, stream_id)`: Python compares
`db_get_stream_id(...) == stream_id`, an `Optional[str]` against a `str`
(so a missing marker never equals a string). -/
def already_announced (db : DB) (tid sid : String) : Bool :=
  db_get_stream_id db tid == some sid

/-! ### Broadcast snapshots and the per-subject step of `check_live` -/

/-- One entry of the Helix `streams` response (`stream` dict in the code);
every field the code reads with `.get` is optional.  `started_at` is
carried to record that the reconciliation step never reads it. -/
structure Stream where
  id : Option String
  title : Option String
  game_name : Option String
  viewer_count : Option Nat
  started_at : Option String
deriving Repr, DecidableEq

/-- Python truthiness of the optional `stream.get("id")` value:
`None` and `""` are falsy. -/
def truthy : Option String → Bool
  | none => false
  | some s => !(s == "")

/-- The environment one subject's iteration of the `check_live` loop
executes in: the observed snapshot (`streams.get(tid)`, `none` = offline)
and the outcomes of the external calls the iteration may make.
`lookupOk` — `get_user_by_login` returns without raising;
`sendOk` — `post_go_live` (the `channel.send`) completes;
`roleResolved` — `live_role` is not `None`;
`hasMember` — `g.get_member` returned a member;
`hasRole` — `live_role in member.roles`;
`roleOk` — `add_roles` / `remove_roles` completes. -/
structure SubjectEnv where
  stream : Option Stream
  lookupOk : Bool
  sendOk : Bool
  roleResolved : Bool
  hasMember : Bool
  hasRole : Bool
  roleOk : Bool
deriving Repr, DecidableEq

/-- Observable side effects of one subject's iteration:
whether the go-live message was actually sent, whether the marker row was
written, and how many `add_roles` / `remove_roles` calls were issued. -/
structure StepEffects where
  announced : Bool
  markerWritten : Bool
  addCalls : Nat
  removeCalls : Nat
deriving Repr, DecidableEq

/-- One subject's iteration of the `for r in rows` body of `check_live`.

Live branch: `stream_id = stream.get("id")`; when `stream_id` is truthy
and `already_announced` is false the code calls `get_user_by_login`
*outside* any `try` (an exception there propagates out of the loop,
modelled by `Except.error`), then inside `try`: `post_go_live` followed by
`db_set_stream_id` (a send failure is caught and skips the marker write).
The role-add block then runs when the role resolved, the member exists and
lacks the role.  Offline branch: `db_clear_live`, then the role-remove
block when the member has the role.  Role-call failures are caught
(`roleOk` only matters for the membership that results, not for control
flow). -/
def subjectStep (db : DB) (tid : String) (env : SubjectEnv) :
    Except Unit (DB × StepEffects) :=
  match env.stream with
  | some st =>
    let addCalls : Nat :=
      if env.roleResolved && env.hasMember && !env.hasRole then 1 else 0
    if truthy st.id && !(already_announced db tid (st.id.getD "")) then
      if env.lookupOk then
        if env.sendOk then
          Except.ok (db_set_stream_id db tid (st.id.getD ""),
            ⟨true, true, addCalls, 0⟩)
        else
          Except.ok (db, ⟨false, false, addCalls, 0⟩)
      else
        Except.error ()
    else
      Except.ok (db, ⟨false, false, addCalls, 0⟩)
  | none =>
    let removeCalls : Nat :=
      if env.roleResolved && env.hasMember && env.hasRole then 1 else 0
    Except.ok (db_clear_live db tid, ⟨false, false, 0, removeCalls⟩)

/-- A sequence of reconciliation ticks for one subject: thread the
database through `subjectStep` and count the announcements that were
actually sent.  An uncaught exception ends the run (the remaining ticks of
the modelled window are not executed). -/
def runTicks (db : DB) (tid : String) (envs : List SubjectEnv) : DB × Nat :=
  match envs with
  | [] => (db, 0)
  | e :: rest =>
    match subjectStep db tid e with
    | Except.error _ => (db, 0)
    | Except.ok (db2, eff) =>
      let r := runTicks db2 tid rest
      (r.1, (if eff.announced then 1 else 0) + r.2)

/-- Total add-role plus remove-role calls one subject's iteration issues
(an aborted iteration issued none: the exception is raised before the
role block). -/
def roleCallsOf (db : DB) (tid : String) (env : SubjectEnv) : Nat :=
  match subjectStep db tid env with
  | Except.ok (_, eff) => eff.addCalls + eff.removeCalls
  | Except.error _ => 0

/-- Role membership after one (completed) iteration: a successful
`add_roles` makes the role present, a successful `remove_roles` makes it
absent, otherwise membership is unchanged. -/
def roleAfterStep (env : SubjectEnv) : Bool :=
  match env.stream with
  | some _ =>
    if env.roleResolved && env.hasMember && !env.hasRole && env.roleOk then
      true
    else env.hasRole
  | none =>
    if env.roleResolved && env.hasMember && env.hasRole && env.roleOk then
      false
    else env.hasRole

/-- Replace the observed role membership of an environment (used to feed
one iteration's resulting membership into the next iteration). -/
def setHasRole (env : SubjectEnv) (b : Bool) : SubjectEnv :=
  ⟨env.stream, env.lookupOk, env.sendOk, env.roleResolved, env.hasMember, b,
    env.roleOk⟩

/-- `liveOkWith sid e`: the tick observes the subject live with session id
`sid` and both external calls of the announce path succeed. -/
def liveOkWith (sid : String) (e : SubjectEnv) : Bool :=
  e.lookupOk && e.sendOk && (e.stream.bind Stream.id == some sid)

/-- `liveWithFalsyId e`: the tick observes the subject live but the
snapshot's session id is missing (`None`) or empty. -/
def liveWithFalsyId (e : SubjectEnv) : Bool :=
  match e.stream with
  | some st => !(truthy st.id)
  | none => false

/-! ### The per-guild loop and the whole tick -/

/-- Result of running (part of) a tick: the database as committed so far,
the per-subject effects of the iterations that completed, and whether an
uncaught exception aborted the remainder of the tick. -/
structure GuildTickResult where
  db : DB
  processed : List (String × StepEffects)
  aborted : Bool
deriving Repr, DecidableEq

/-- The `for r in rows` loop of `check_live` over one guild's registered
subjects.  Database writes made before an uncaught exception persist
(Postgres commits per statement); subjects after the failure point are not
processed this tick. -/
def guildLoop (db : DB) (subs : List (String × SubjectEnv)) : GuildTickResult :=
  match subs with
  | [] => ⟨db, [], false⟩
  | (tid, env) :: rest =>
    match subjectStep db tid env with
    | Except.error _ => ⟨db, [], true⟩
    | Except.ok (db2, eff) =>
      let r := guildLoop db2 rest
      ⟨r.db, (tid, eff) :: r.processed, r.aborted⟩

/-- One guild's slice of a tick: whether a notify channel is configured
and resolves to a text channel, whether `get_streams` returns (it is not
wrapped in `try`), and the registered subjects paired with what the fetch
and the member lookups would yield for them. -/
structure Guild where
  chanConfigured : Bool
  fetchOk : Bool
  subs : List (String × SubjectEnv)
deriving Repr, DecidableEq

/-- The `for g in bot.guilds` body of `check_live`: a guild without a
configured channel or without registered subjects is skipped (`continue`);
a `get_streams` failure, like an uncaught per-subject exception, aborts
the whole remaining tick (the loop is not wrapped in `try`). -/
def tickLoop (db : DB) (gs : List Guild) : GuildTickResult :=
  match gs with
  | [] => ⟨db, [], false⟩
  | g :: rest =>
    if !g.chanConfigured then tickLoop db rest
    else if g.subs.isEmpty then tickLoop db rest
    else if !g.fetchOk then ⟨db, [], true⟩
    else
      let r := guildLoop db g.subs
      if r.aborted then r
      else
        let r2 := tickLoop r.db rest
        ⟨r2.db, r.processed ++ r2.processed, r2.aborted⟩

/-! ### `TwitchAPI._get_token` — the bearer-token cache -/

/-- In-memory token cache of `TwitchAPI`: `_token` starts as `None`
(Python falsiness also treats an empty string as "no token"), `_token_expiry`
starts at `0`.  Times are seconds (`time.time()`), modelled as integers. -/
structure TokenState where
  token : Option String
  expiry : Int
deriving Repr, DecidableEq

/-- The JSON body the credential-grant exchange would return:
`access_token` may be missing; `expires_in` defaults to 3600. -/
structure TokenResponse where
  accessToken : Option String
  expiresIn : Option Int
deriving Repr, DecidableEq

/-- What `_get_token` did: returned the cached token, performed a fresh
exchange, or raised (`RuntimeError("Twitch token error: ...")`) because the
response lacked `access_token`. -/
inductive TokenOutcome where
  | cached (t : String)
  | fetched (t : String)
  | authError
deriving Repr, DecidableEq

/-- The cache-freshness test of `_get_token`:
`if self._token and now < self._token_expiry - 60`. -/
def tokenFresh (st : TokenState) (now : Int) : Bool :=
  (match st.token with
   | some t => !(t == "")
   | none => false) && decide (now < st.expiry - 60)

/-- `TwitchAPI._get_token`, given the current clock and the exchange
response it would receive if it performs the POST.  On a fresh cache the
POST is skipped; otherwise the exchange runs: no `access_token` raises
(state unchanged), else the token and `now + expires_in` (default 3600)
are cached. -/
def get_token (st : TokenState) (now : Int) (resp : TokenResponse) :
    TokenState × TokenOutcome :=
  if tokenFresh st now then
    (st, TokenOutcome.cached (st.token.getD ""))
  else
    match resp.accessToken with
    | none => (st, TokenOutcome.authError)
    | some tok =>
      (⟨some tok, now + resp.expiresIn.getD 3600⟩, TokenOutcome.fetched tok)

/-! ### `TwitchAPI.resolve_user` — name resolution -/

/-- The profile dict `resolve_user` returns (`id`, `login`,
`display_name`, `profile_image_url`). -/
structure Profile where
  id : String
  login : String
  display_name : String
  profile_image_url : Option String
deriving Repr, DecidableEq

/-- One entry of the Helix `search/channels` response, with the fields the
code reads. -/
structure Channel where
  id : String
  broadcaster_login : String
  display_name : String
  thumbnail_url : Option String
deriving Repr, DecidableEq

/-- ASCII lowercasing of a string (Python `str.lower()` restricted to the
ASCII range, which covers Twitch logins). -/
def lowerStr (s : String) : String :=
  String.mk (s.data.map Char.toLower)

/-- `TwitchAPI.get_user_by_login`: the Helix users endpoint looks a user up
by its canonical (lowercase) login; modelled as exact lookup in the table
of existing users keyed by login. -/
def get_user_by_login (users : List (String × Profile)) (login : String) :
    Option Profile :=
  match users with
  | [] => none
  | (k, u) :: rest => if login = k then some u else get_user_by_login rest login

/-- `TwitchAPI.search_channels`: the fuzzy search results the upstream
would return for each query (`j.get("data", []) or []`). -/
def search_channels (results : List (String × List Channel)) (q : String) :
    List Channel :=
  match results with
  | [] => []
  | (k, cs) :: rest => if q = k then cs else search_channels rest q

/-- `TwitchAPI.resolve_user(name_or_login)`: try the raw input as a login;
on failure search channels with the raw input, keep the entries whose
display name matches case-insensitively, take the first of those, else the
first search result, else not-found. -/
def resolve_user (users : List (String × Profile))
    (results : List (String × List Channel)) (q : String) : Option Profile :=
  match get_user_by_login users q with
  | some u => some u
  | none =>
    let chans := search_channels results q
    let exact := chans.filter (fun c => lowerStr c.display_name == lowerStr q)
    let candidate :=
      match exact with
      | c :: _ => some c
      | [] => chans.head?
    match candidate with
    | none => none
    | some c => some ⟨c.id, c.broadcaster_login, c.display_name, c.thumbnail_url⟩

/-- Whitespace test used by the claimed trimming step. -/
def isSpaceChar (c : Char) : Bool :=
  c == ' ' || c == '\t' || c == '\n' || c == '\r'

/-- Strip whitespace from both ends of a string. -/
def trimStr (s : String) : String :=
  String.mk (((s.data.dropWhile isSpaceChar).reverse.dropWhile isSpaceChar).reverse)

/-- The known profile-URL form the claimed normalization strips. -/
def urlPre : String := "https://twitch.tv/"

/-- The input normalization that claim C8 (spec §4.1) ascribes to subject
resolution, written from the spec's words: strip the known profile-URL
form, strip a leading "@", strip whitespace, lowercase.  The code under
`resolve_user` performs none of these steps. -/
def spec_normalize (s : String) : String :=
  let l1 := if urlPre.data.isPrefixOf s.data then s.data.drop urlPre.data.length
            else s.data
  let l2 := match l1 with
    | '@' :: rest => rest
    | _ => l1
  lowerStr (trimStr (String.mk l2))

/-- The resolution procedure claim C8 describes: normalize first, then the
direct lookup and the fuzzy fallback both on the normalized handle. -/
def spec_resolve (users : List (String × Profile))
    (results : List (String × List Channel)) (q : String) : Option Profile :=
  let n := spec_normalize q
  match get_user_by_login users n with
  | some u => some u
  | none =>
    let chans := search_channels results n
    let exact := chans.filter (fun c => lowerStr c.display_name == lowerStr n)
    let candidate :=
      match exact with
      | c :: _ => some c
      | [] => chans.head?
    match candidate with
    | none => none
    | some c => some ⟨c.id, c.broadcaster_login, c.display_name, c.thumbnail_url⟩

/-! ### Basic facts about the marker table -/

theorem dbLookup_dbDelete_self (db : DB) (t : String) :
    dbLookup (dbDelete db t) t = none := by
  induction db with
  | nil => rfl
  | cons hd rest ih =>
    obtain ⟨k, v⟩ := hd
    by_cases hk : k = t
    · simpa [dbDelete, hk] using ih
    · have hk2 : ¬ t = k := fun h => hk h.symm
      simpa [dbDelete, dbLookup, hk, hk2] using ih

theorem db_get_set_self (db : DB) (tid sid : String) (h : sid ≠ "") :
    db_get_stream_id (db_set_stream_id db tid sid) tid = some sid := by
  simp [db_get_stream_id, db_set_stream_id, dbLookup, h]

theorem db_get_clear_self (db : DB) (tid : String) :
    db_get_stream_id (db_clear_live db tid) tid = none := by
  simp [db_get_stream_id, db_clear_live, dbLookup_dbDelete_self]

/-! ### Shapes of the per-subject step -/

theorem subjectStep_announces (db : DB) (tid sid : String) (st : Stream)
    (env : SubjectEnv) (hstream : env.stream = some st) (hid : st.id = some sid)
    (hsid : sid ≠ "") (hlk : env.lookupOk = true) (hsend : env.sendOk = true)
    (hmk : db_get_stream_id db tid ≠ some sid) :
    subjectStep db tid env =
      Except.ok (db_set_stream_id db tid sid,
        ⟨true, true,
          (if env.roleResolved && env.hasMember && !env.hasRole then 1 else 0),
          0⟩) := by
  have ha : already_announced db tid sid = false := by
    simp only [already_announced, beq_eq_false_iff_ne, ne_eq]
    exact hmk
  simp [subjectStep, hstream, hid, truthy, hsid, ha, hlk, hsend]

theorem subjectStep_sendFail (db : DB) (tid sid : String) (st : Stream)
    (env : SubjectEnv) (hstream : env.stream = some st) (hid : st.id = some sid)
    (hsid : sid ≠ "") (hlk : env.lookupOk = true) (hsend : env.sendOk = false)
    (hmk : db_get_stream_id db tid ≠ some sid) :
    subjectStep db tid env =
      Except.ok (db,
        ⟨false, false,
          (if env.roleResolved && env.hasMember && !env.hasRole then 1 else 0),
          0⟩) := by
  have ha : already_announced db tid sid = false := by
    simp only [already_announced, beq_eq_false_iff_ne, ne_eq]
    exact hmk
  simp [subjectStep, hstream, hid, truthy, hsid, ha, hlk, hsend]

theorem subjectStep_suppressed (db : DB) (tid sid : String) (st : Stream)
    (env : SubjectEnv) (hstream : env.stream = some st) (hid : st.id = some sid)
    (hmk : db_get_stream_id db tid = some sid) :
    subjectStep db tid env =
      Except.ok (db,
        ⟨false, false,
          (if env.roleResolved && env.hasMember && !env.hasRole then 1 else 0),
          0⟩) := by
  have ha : already_announced db tid sid = true := by
    simp [already_announced, hmk]
  simp [subjectStep, hstream, hid, ha]

theorem subjectStep_offline (db : DB) (tid : String) (env : SubjectEnv)
    (h : env.stream = none) :
    subjectStep db tid env =
      Except.ok (db_clear_live db tid,
        ⟨false, false, 0,
          (if env.roleResolved && env.hasMember && env.hasRole then 1 else 0)⟩) := by
  simp [subjectStep, h]

theorem subjectStep_falsyId (db : DB) (tid : String) (st : Stream)
    (env : SubjectEnv) (hstream : env.stream = some st)
    (hid : truthy st.id = false) :
    subjectStep db tid env =
      Except.ok (db,
        ⟨false, false,
          (if env.roleResolved && env.hasMember && !env.hasRole then 1 else 0),
          0⟩) := by
  simp [subjectStep, hstream, hid]

theorem lookupOk_false_of_error (db : DB) (tid : String) (env : SubjectEnv)
    (e : Unit) (h : subjectStep db tid env = Except.error e) :
    env.lookupOk = false := by
  obtain ⟨stream, lk, sd, rr, hm, hr, rk⟩ := env
  cases lk with
  | false => rfl
  | true =>
    exfalso
    cases stream with
    | none => simp [subjectStep] at h
    | some st =>
      simp only [subjectStep] at h
      split at h
      · split at h
        · split at h <;> simp at h
        · simp_all
      · simp at h

theorem markerWritten_imp_send (db0 db1 : DB) (tid : String) (env : SubjectEnv)
    (eff : StepEffects) (h : subjectStep db0 tid env = Except.ok (db1, eff))
    (hw : eff.markerWritten = true) :
    env.sendOk = true ∧ eff.announced = true := by
  obtain ⟨stream, lk, sd, rr, hm, hr, rk⟩ := env
  cases stream with
  | none =>
    simp only [subjectStep] at h
    obtain ⟨h1, h2⟩ := by simpa using h
    rw [← h2] at hw
    simp at hw
  | some st =>
    simp only [subjectStep] at h
    split at h
    · cases lk with
      | false => simp at h
      | true =>
        cases sd with
        | false =>
          simp only [if_true, if_false, cond] at h
          obtain ⟨h1, h2⟩ := by simpa using h
          rw [← h2] at hw
          simp at hw
        | true =>
          obtain ⟨h1, h2⟩ := by simpa using h
          rw [← h2]
          exact ⟨rfl, rfl⟩
    · obtain ⟨h1, h2⟩ := by simpa using h
      rw [← h2] at hw
      simp at hw

theorem liveOkWith_spec (sid : String) (e : SubjectEnv)
    (h : liveOkWith sid e = true) :
    e.lookupOk = true ∧ e.sendOk = true ∧ e.stream.bind Stream.id = some sid := by
  have h2 : (e.lookupOk = true ∧ e.sendOk = true) ∧
      e.stream.bind Stream.id = some sid := by
    simpa [liveOkWith, Bool.and_eq_true, beq_iff_eq] using h
  exact ⟨h2.1.1, h2.1.2, h2.2⟩

theorem stream_of_bind (e : SubjectEnv) (sid : String)
    (h : e.stream.bind Stream.id = some sid) :
    ∃ st, e.stream = some st ∧ st.id = some sid := by
  cases hs : e.stream with
  | none => rw [hs] at h; simp at h
  | some st => rw [hs] at h; exact ⟨st, rfl, by simpa using h⟩

theorem liveWithFalsyId_spec (e : SubjectEnv) (h : liveWithFalsyId e = true) :
    ∃ st, e.stream = some st ∧ truthy st.id = false := by
  unfold liveWithFalsyId at h
  cases hs : e.stream with
  | none => rw [hs] at h; simp at h
  | some st => rw [hs] at h; exact ⟨st, rfl, by simpa using h⟩

/-- While the stored marker equals the observed session id, a run of live
ticks changes nothing and announces nothing. -/
theorem runTicks_suppressed (db : DB) (tid sid : String)
    (envs : List SubjectEnv)
    (hmk : db_get_stream_id db tid = some sid)
    (hall : ∀ e ∈ envs, e.stream.bind Stream.id = some sid) :
    runTicks db tid envs = (db, 0) := by
  induction envs with
  | nil => rfl
  | cons e rest ih =>
    obtain ⟨st, hs, hid⟩ :=
      stream_of_bind e sid (hall e (List.mem_cons_self _ _))
    have hstep := subjectStep_suppressed db tid sid st e hs hid hmk
    have ihr := ih (fun e2 he2 => hall e2 (List.mem_cons_of_mem _ he2))
    simp [runTicks, hstep, ihr]

/-- A run of live ticks whose snapshots all carry a falsy session id
changes nothing and announces nothing. -/
theorem runTicks_falsyId (db : DB) (tid : String) (envs : List SubjectEnv)
    (hall : ∀ e ∈ envs, liveWithFalsyId e = true) :
    runTicks db tid envs = (db, 0) := by
  induction envs with
  | nil => rfl
  | cons e rest ih =>
    obtain ⟨st, hs, hid⟩ :=
      liveWithFalsyId_spec e (hall e (List.mem_cons_self _ _))
    have hstep := subjectStep_falsyId db tid st e hs hid
    have ihr := ih (fun e2 he2 => hall e2 (List.mem_cons_of_mem _ he2))
    simp [runTicks, hstep, ihr]

/-- The number of role calls a completed iteration issues depends only on
the observed status and the observed membership, never on the database. -/
theorem roleCallsOf_eq (db : DB) (tid : String) (env : SubjectEnv)
    (hlk : env.lookupOk = true) :
    roleCallsOf db tid env =
      (match env.stream with
       | some _ => if env.roleResolved && env.hasMember && !env.hasRole then 1 else 0
       | none => if env.roleResolved && env.hasMember && env.hasRole then 1 else 0) := by
  cases hs : env.stream with
  | none => simp [roleCallsOf, subjectStep_offline db tid env hs]
  | some st =>
    cases hc : (truthy st.id && !(already_announced db tid (st.id.getD ""))) with
    | false => simp [roleCallsOf, subjectStep, hs, hc]
    | true =>
      cases hsend : env.sendOk with
      | false => simp [roleCallsOf, subjectStep, hs, hc, hlk, hsend]
      | true => simp [roleCallsOf, subjectStep, hs, hc, hlk, hsend]

/-! ### The claims -/

/-- C1: over any nonempty run of reconciliation ticks in which the subject
is observed live with the same (non-empty) session id `sid` on every tick
and the announce path's external calls succeed, starting from a state
whose marker is not already `sid`, exactly one announcement is sent, and
the run leaves the marker equal to `sid` — the first tick announces and
writes the marker, every later tick finds the marker equal to the observed
session id and sends nothing. -/
theorem claim_C1_dedup (db : DB) (tid sid : String) (envs : List SubjectEnv)
    (hsid : sid ≠ "") (hmk : db_get_stream_id db tid ≠ some sid)
    (hne : envs ≠ [])
    (hall : ∀ e ∈ envs, liveOkWith sid e = true) :
    (runTicks db tid envs).2 = 1 ∧
    db_get_stream_id (runTicks db tid envs).1 tid = some sid := by
  cases envs with
  | nil => exact absurd rfl hne
  | cons e rest =>
    obtain ⟨hlk, hsend, hbind⟩ :=
      liveOkWith_spec sid e (hall e (List.mem_cons_self _ _))
    obtain ⟨st, hs, hid⟩ := stream_of_bind e sid hbind
    have hstep := subjectStep_announces db tid sid st e hs hid hsid hlk hsend hmk
    have hmk2 : db_get_stream_id (db_set_stream_id db tid sid) tid = some sid :=
      db_get_set_self db tid sid hsid
    have htail := runTicks_suppressed (db_set_stream_id db tid sid) tid sid rest
      hmk2
      (fun e2 he2 =>
        (liveOkWith_spec sid e2 (hall e2 (List.mem_cons_of_mem _ he2))).2.2)
    simp [runTicks, hstep, htail, hmk2]

/-- C1 witness: two ticks live with session id "s9" starting from an empty
table announce exactly once and leave the marker at "s9". -/
theorem claim_C1_dedup_witness :
    (runTicks [] "1"
        [⟨some ⟨some "s9", none, none, none, none⟩, true, true, true, true, false, true⟩,
         ⟨some ⟨some "s9", none, none, none, none⟩, true, true, true, true, false, true⟩]).2 = 1 ∧
    db_get_stream_id
      (runTicks [] "1"
        [⟨some ⟨some "s9", none, none, none, none⟩, true, true, true, true, false, true⟩,
         ⟨some ⟨some "s9", none, none, none, none⟩, true, true, true, true, false, true⟩]).1 "1" = some "s9" :=
  claim_C1_dedup [] "1" "s9" _ (by decide) (by decide) (by decide) (by decide)

/-- C2: live with session `sid`, then offline, then live with the same
`sid` again yields two announcements, because the offline tick deletes the
marker (after the first two ticks the marker is gone). -/
theorem claim_C2_reannounce (db : DB) (tid sid : String)
    (e1 e2 e3 : SubjectEnv)
    (hsid : sid ≠ "") (hmk : db_get_stream_id db tid ≠ some sid)
    (h1 : liveOkWith sid e1 = true) (h2 : e2.stream = none)
    (h3 : liveOkWith sid e3 = true) :
    (runTicks db tid [e1, e2, e3]).2 = 2 ∧
    db_get_stream_id (runTicks db tid [e1, e2]).1 tid = none := by
  obtain ⟨hlk1, hsend1, hbind1⟩ := liveOkWith_spec sid e1 h1
  obtain ⟨st1, hs1, hid1⟩ := stream_of_bind e1 sid hbind1
  obtain ⟨hlk3, hsend3, hbind3⟩ := liveOkWith_spec sid e3 h3
  obtain ⟨st3, hs3, hid3⟩ := stream_of_bind e3 sid hbind3
  have hstep1 := subjectStep_announces db tid sid st1 e1 hs1 hid1 hsid hlk1 hsend1 hmk
  have hstep2 := subjectStep_offline (db_set_stream_id db tid sid) tid e2 h2
  have hmk2 : db_get_stream_id
      (db_clear_live (db_set_stream_id db tid sid) tid) tid = none :=
    db_get_clear_self (db_set_stream_id db tid sid) tid
  have hmk2ne : db_get_stream_id
      (db_clear_live (db_set_stream_id db tid sid) tid) tid ≠ some sid := by
    rw [hmk2]; simp
  have hstep3 := subjectStep_announces
    (db_clear_live (db_set_stream_id db tid sid) tid) tid sid st3 e3 hs3 hid3
    hsid hlk3 hsend3 hmk2ne
  constructor
  · simp [runTicks, hstep1, hstep2, hstep3]
  · simp [runTicks, hstep1, hstep2, hmk2]

/-- C2 witness: the concrete three-tick sequence for subject "1" with
session id "sA". -/
theorem claim_C2_reannounce_witness :
    (runTicks [] "1"
        [⟨some ⟨some "sA", none, none, none, none⟩, true, true, true, true, false, true⟩,
         ⟨none, true, true, true, true, true, true⟩,
         ⟨some ⟨some "sA", none, none, none, none⟩, true, true, true, true, false, true⟩]).2 = 2 ∧
    db_get_stream_id
      (runTicks [] "1"
        [⟨some ⟨some "sA", none, none, none, none⟩, true, true, true, true, false, true⟩,
         ⟨none, true, true, true, true, true, true⟩]).1 "1" = none :=
  claim_C2_reannounce [] "1" "sA" _ _ _ (by decide) (by decide) (by decide)
    (by decide) (by decide)

/-- C3: dedup is governed by the session id alone, never by the start
timestamp: once the marker equals the observed session id, a tick whose
snapshot carries that id — with the snapshot's `started_at` (and every
other field) completely arbitrary — sends nothing, writes nothing, and
leaves the table untouched. -/
theorem claim_C3_sessionid_governs (db : DB) (tid sid : String) (st : Stream)
    (env : SubjectEnv) (hstream : env.stream = some st)
    (hid : st.id = some sid)
    (hmk : db_get_stream_id db tid = some sid) :
    subjectStep db tid env =
      Except.ok (db,
        ⟨false, false,
          (if env.roleResolved && env.hasMember && !env.hasRole then 1 else 0),
          0⟩) :=
  subjectStep_suppressed db tid sid st env hstream hid hmk

/-- C3 witness: marker "sA" set; the observed snapshot reports the same
session id "sA" but a different `started_at` ("T2"); no announcement and
the table is unchanged. -/
theorem claim_C3_sessionid_governs_witness :
    subjectStep [("1", some "sA")] "1"
        ⟨some ⟨some "sA", some "t", some "g", some 7, some "T2"⟩,
          true, true, true, true, true, true⟩ =
      Except.ok ([("1", some "sA")], ⟨false, false, 0, 0⟩) :=
  claim_C3_sessionid_governs [("1", some "sA")] "1" "sA"
    ⟨some "sA", some "t", some "g", some 7, some "T2"⟩ _ rfl rfl (by decide)

/-- C4: when the announcement send fails the marker write is skipped — the
step commits the database unchanged — so a next tick that observes the
same session with the send succeeding announces and only then writes the
marker; and in full generality a completed step wrote the marker only if
its send succeeded (and the message was actually sent). -/
theorem claim_C4_marker_after_send (db : DB) (tid sid : String) (st : Stream)
    (envF envR : SubjectEnv)
    (hsid : sid ≠ "") (hid : st.id = some sid)
    (hmk : db_get_stream_id db tid ≠ some sid)
    (hFs : envF.stream = some st) (hFl : envF.lookupOk = true)
    (hFsend : envF.sendOk = false)
    (hRs : envR.stream = some st) (hRl : envR.lookupOk = true)
    (hRsend : envR.sendOk = true) :
    subjectStep db tid envF =
      Except.ok (db,
        ⟨false, false,
          (if envF.roleResolved && envF.hasMember && !envF.hasRole then 1 else 0),
          0⟩) ∧
    subjectStep db tid envR =
      Except.ok (db_set_stream_id db tid sid,
        ⟨true, true,
          (if envR.roleResolved && envR.hasMember && !envR.hasRole then 1 else 0),
          0⟩) ∧
    (∀ (db0 db1 : DB) (env : SubjectEnv) (eff : StepEffects),
      subjectStep db0 tid env = Except.ok (db1, eff) →
      eff.markerWritten = true → env.sendOk = true ∧ eff.announced = true) :=
  ⟨subjectStep_sendFail db tid sid st envF hFs hid hsid hFl hFsend hmk,
   subjectStep_announces db tid sid st envR hRs hid hsid hRl hRsend hmk,
   fun db0 db1 env eff h hw => markerWritten_imp_send db0 db1 tid env eff h hw⟩

/-- C4 witness: subject "1", session "s9"; the failed-send tick leaves the
empty table empty, the succeeding tick writes the marker. -/
theorem claim_C4_marker_after_send_witness :
    subjectStep [] "1"
        ⟨some ⟨some "s9", none, none, none, none⟩, true, false, true, true, false, true⟩ =
      Except.ok ([], ⟨false, false, 1, 0⟩) ∧
    subjectStep [] "1"
        ⟨some ⟨some "s9", none, none, none, none⟩, true, true, true, true, false, true⟩ =
      Except.ok (db_set_stream_id [] "1" "s9", ⟨true, true, 1, 0⟩) :=
  have h := claim_C4_marker_after_send [] "1" "s9"
    ⟨some "s9", none, none, none, none⟩
    ⟨some ⟨some "s9", none, none, none, none⟩, true, false, true, true, false, true⟩
    ⟨some ⟨some "s9", none, none, none, none⟩, true, true, true, true, false, true⟩
    (by decide) rfl (by decide) rfl rfl rfl rfl rfl rfl
  ⟨h.1, h.2.1⟩

/-- C9: the role-sync part of the step is idempotent — running the step
again with the same observed status on the membership the first run left
behind (role mutations succeeding) issues zero add-role or remove-role
calls, and a step whose observed membership already matches the desired
presence (role present iff live) issues zero such calls. -/
theorem claim_C9_role_idempotent (db db2 : DB) (tid : String)
    (env : SubjectEnv)
    (hlk : env.lookupOk = true) (hrl : env.roleOk = true) :
    roleCallsOf db2 tid (setHasRole env (roleAfterStep env)) = 0 ∧
    (env.hasRole = env.stream.isSome → roleCallsOf db tid env = 0) := by
  have h2 : (setHasRole env (roleAfterStep env)).lookupOk = true := hlk
  rw [roleCallsOf_eq db2 tid _ h2, roleCallsOf_eq db tid env hlk]
  obtain ⟨stream, lk, sd, rr, hm, hr, rk⟩ := env
  simp only [SubjectEnv.roleOk] at hrl
  subst hrl
  cases stream with
  | none =>
    cases rr <;> cases hm <;> cases hr <;>
      simp [setHasRole, roleAfterStep]
  | some st =>
    cases rr <;> cases hm <;> cases hr <;>
      simp [setHasRole, roleAfterStep]

/-- C9 witness: a live subject whose member lacks the role — after the
first run adds it, the second run issues zero role calls; and a live
subject already holding the role issues zero calls. -/
theorem claim_C9_role_idempotent_witness :
    roleCallsOf [] "1"
      (setHasRole
        ⟨some ⟨some "s9", none, none, none, none⟩, true, true, true, true, false, true⟩
        (roleAfterStep
          ⟨some ⟨some "s9", none, none, none, none⟩, true, true, true, true, false, true⟩)) = 0 :=
  (claim_C9_role_idempotent [] [] "1"
    ⟨some ⟨some "s9", none, none, none, none⟩, true, true, true, true, false, true⟩
    rfl rfl).1

/-- C10: a subject observed live whose snapshot has a missing or empty
session id gets no announcement and no marker write — the step commits the
table unchanged — while still issuing the role-add call exactly when the
role resolved, the member exists and lacks the role; and any run of ticks
all observing such snapshots announces nothing and leaves the table
unchanged (the subject stays unannounced until a non-empty session id is
observed). -/
theorem claim_C10_falsy_session_id (db : DB) (tid : String)
    (env : SubjectEnv) (envs : List SubjectEnv)
    (henv : liveWithFalsyId env = true)
    (hall : ∀ e ∈ envs, liveWithFalsyId e = true) :
    subjectStep db tid env =
      Except.ok (db,
        ⟨false, false,
          (if env.roleResolved && env.hasMember && !env.hasRole then 1 else 0),
          0⟩) ∧
    runTicks db tid envs = (db, 0) := by
  obtain ⟨st, hs, hid⟩ := liveWithFalsyId_spec env henv
  exact ⟨subjectStep_falsyId db tid st env hs hid,
    runTicks_falsyId db tid envs hall⟩

/-- C10 witness: a live snapshot with an empty session id on a subject
with an existing stale marker: no announcement, marker untouched, role-add
issued; three such ticks announce nothing. -/
theorem claim_C10_falsy_session_id_witness :
    subjectStep [("1", some "old")] "1"
        ⟨some ⟨some "", none, none, none, none⟩, true, true, true, true, false, true⟩ =
      Except.ok ([("1", some "old")], ⟨false, false, 1, 0⟩) ∧
    runTicks [("1", some "old")] "1"
        [⟨some ⟨none, none, none, none, none⟩, true, true, true, true, false, true⟩,
         ⟨some ⟨some "", none, none, none, none⟩, true, true, true, true, false, true⟩] =
      ([("1", some "old")], 0) :=
  claim_C10_falsy_session_id [("1", some "old")] "1"
    ⟨some ⟨some "", none, none, none, none⟩, true, true, true, true, false, true⟩
    _ (by decide) (by decide)

/-- C5 counterexample: subject "1" is live with a fresh session but its
profile lookup (`get_user_by_login`) raises — that call sits outside the
`try` block, so the exception is not caught: the tick aborts, subject "2"
(offline, with a marker that the claim says this tick deletes) is never
processed and its marker survives the tick. -/
theorem claim_C5_isolation_counterexample :
    (guildLoop [("2", some "s1")]
        [("1", ⟨some ⟨some "s9", none, none, none, none⟩, false, true, true, true, false, true⟩),
         ("2", ⟨none, true, true, true, true, true, true⟩)]).aborted = true ∧
    (guildLoop [("2", some "s1")]
        [("1", ⟨some ⟨some "s9", none, none, none, none⟩, false, true, true, true, false, true⟩),
         ("2", ⟨none, true, true, true, true, true, true⟩)]).processed = [] ∧
    db_get_stream_id
      (guildLoop [("2", some "s1")]
        [("1", ⟨some ⟨some "s9", none, none, none, none⟩, false, true, true, true, false, true⟩),
         ("2", ⟨none, true, true, true, true, true, true⟩)]).db "2" = some "s1" := by
  decide

/-- C5 (amended): a send failure or a role-mutation failure while
processing one subject is caught and does not prevent the per-subject
reconciliation step from running and committing state for every remaining
subject in the same tick; but a profile lookup failure is not caught — it
aborts the tick for that subject and every remaining one.  Formally: when
every subject's profile lookup succeeds, the loop completes unaborted and
processes every subject in order, with no assumption on send or role-call
outcomes. -/
theorem claim_C5_isolation_amended (db : DB)
    (subs : List (String × SubjectEnv))
    (h : ∀ p ∈ subs, (p.2).lookupOk = true) :
    (guildLoop db subs).aborted = false ∧
    (guildLoop db subs).processed.map Prod.fst = subs.map Prod.fst := by
  induction subs generalizing db with
  | nil => exact ⟨rfl, rfl⟩
  | cons hd rest ih =>
    obtain ⟨tid, env⟩ := hd
    have hlk : env.lookupOk = true := h _ (List.mem_cons_self _ _)
    rcases hstep : subjectStep db tid env with e | ⟨db2, eff⟩
    · have := lookupOk_false_of_error db tid env e hstep
      rw [hlk] at this
      exact absurd this (by simp)
    · have ihr := ih db2 (fun p hp => h p (List.mem_cons_of_mem _ hp))
      simp [guildLoop, hstep, ihr.1, ihr.2]

/-- C5 amended witness: subject "1" live with the send failing and subject
"3" offline with the role removal failing — both remaining subjects still
processed, tick unaborted. -/
theorem claim_C5_isolation_amended_witness :
    (guildLoop []
        [("1", ⟨some ⟨some "s9", none, none, none, none⟩, true, false, true, true, false, true⟩),
         ("3", ⟨none, true, true, true, true, true, false⟩)]).aborted = false ∧
    (guildLoop []
        [("1", ⟨some ⟨some "s9", none, none, none, none⟩, true, false, true, true, false, true⟩),
         ("3", ⟨none, true, true, true, true, true, false⟩)]).processed.map Prod.fst =
      ["1", "3"] :=
  claim_C5_isolation_amended []
    [("1", ⟨some ⟨some "s9", none, none, none, none⟩, true, false, true, true, false, true⟩),
     ("3", ⟨none, true, true, true, true, true, false⟩)] (by decide)

/-- C6 counterexample: the batched `get_streams` call for the first guild
raises (it is not wrapped in `try`), so the whole tick aborts: the second
guild — whose offline subject "2" carries a marker the claim says this
tick deletes — is never reconciled and its marker survives. -/
theorem claim_C6_community_counterexample :
    tickLoop [("2", some "s1")]
        [⟨true, false, [("1", ⟨some ⟨some "s9", none, none, none, none⟩, true, true, true, true, false, true⟩)]⟩,
         ⟨true, true, [("2", ⟨none, true, true, true, true, true, true⟩)]⟩] =
      ⟨[("2", some "s1")], [], true⟩ := by
  decide

/-- C6 (amended): a failure of the batched live-status fetch for one
community aborts reconciliation not only for that community but for every
community not yet processed in the current tick — the loop over guilds is
not protected, so the exception ends the tick; state committed earlier in
the tick persists and the next timer tick starts over.  Formally: a guild
with a configured channel, a nonempty subject list and a failing fetch
makes the tick return with the database as it stood, nothing processed,
and the aborted flag set, whatever guilds follow. -/
theorem claim_C6_community_amended (db : DB) (g : Guild) (rest : List Guild)
    (h1 : g.chanConfigured = true) (h2 : g.subs ≠ []) (h3 : g.fetchOk = false) :
    tickLoop db (g :: rest) = ⟨db, [], true⟩ := by
  have h2e : g.subs.isEmpty = false := by
    cases hs : g.subs with
    | nil => exact absurd hs h2
    | cons a l => simp
  simp [tickLoop, h1, h2e, h3]

/-- C6 amended witness: a failing fetch on the first guild ends the tick
with nothing processed, for a concrete trailing guild. -/
theorem claim_C6_community_amended_witness :
    tickLoop [("7", some "x")]
        [⟨true, false, [("1", ⟨none, true, true, true, true, true, true⟩)]⟩,
         ⟨true, true, [("7", ⟨none, true, true, true, true, true, true⟩)]⟩] =
      ⟨[("7", some "x")], [], true⟩ :=
  claim_C6_community_amended [("7", some "x")]
    ⟨true, false, [("1", ⟨none, true, true, true, true, true, true⟩)]⟩
    [⟨true, true, [("7", ⟨none, true, true, true, true, true, true⟩)]⟩]
    rfl (by decide) rfl

/-- C7: `_get_token` returns the cached token without a new exchange
exactly when a (non-empty) token is cached with more than 60 seconds left
before its recorded expiry; otherwise it performs the exchange — failing
with the token error when the response carries no `access_token` (cache
unchanged), and otherwise caching and returning the fresh token with
expiry `now + expires_in` (default 3600). -/
theorem claim_C7_token_cache (st : TokenState) (now : Int)
    (resp : TokenResponse) :
    ((get_token st now resp).2 = TokenOutcome.cached (st.token.getD "") ↔
      tokenFresh st now = true) ∧
    (tokenFresh st now = true ↔
      ∃ t, st.token = some t ∧ t ≠ "" ∧ now < st.expiry - 60) ∧
    (tokenFresh st now = false → resp.accessToken = none →
      get_token st now resp = (st, TokenOutcome.authError)) ∧
    (tokenFresh st now = false → ∀ tok, resp.accessToken = some tok →
      get_token st now resp =
        (⟨some tok, now + resp.expiresIn.getD 3600⟩, TokenOutcome.fetched tok)) := by
  refine ⟨?_, ?_, ?_, ?_⟩
  · by_cases hf : tokenFresh st now = true
    · simp [get_token, hf]
    · have hf2 : tokenFresh st now = false := by
        cases h : tokenFresh st now
        · rfl
        · exact absurd h hf
      cases ha : resp.accessToken with
      | none => simp [get_token, hf2, ha]
      | some tok => simp [get_token, hf2, ha]
  · unfold tokenFresh
    cases ht : st.token with
    | none => simp
    | some t =>
      by_cases hte : t = ""
      · simp [hte]
      · by_cases hlt : now < st.expiry - 60
        · simp [hte, hlt]
        · simp [hte, hlt]
  · intro hf ha
    simp [get_token, hf, ha]
  · intro hf tok ha
    simp [get_token, hf, ha]

/-- C7 witness: with token "tok" cached and 1000 seconds to expiry at time
0, the cached token is returned without an exchange. -/
theorem claim_C7_token_cache_witness :
    (get_token ⟨some "tok", 1000⟩ 0 ⟨none, none⟩).2 =
      TokenOutcome.cached "tok" :=
  ((claim_C7_token_cache ⟨some "tok", 1000⟩ 0 ⟨none, none⟩).1).mpr (by decide)

/-- C8 counterexample: the claimed normalization does not exist in the
code.  With the user "foo" registered upstream and every channel search
empty, the input "@foo" — which the claim says is normalized to "foo" and
then found by direct lookup — makes `resolve_user` return not-found, while
the claim's described procedure (`spec_resolve`) finds the user; so
`resolve_user` does not implement the claimed normalize-then-look-up
behavior. -/
theorem claim_C8_resolution_counterexample :
    resolve_user [("foo", ⟨"123", "foo", "Foo", none⟩)] [] "@foo" = none ∧
    spec_resolve [("foo", ⟨"123", "foo", "Foo", none⟩)] [] "@foo" =
      some ⟨"123", "foo", "Foo", none⟩ ∧
    resolve_user [("foo", ⟨"123", "foo", "Foo", none⟩)] [] "@foo" ≠
      spec_resolve [("foo", ⟨"123", "foo", "Foo", none⟩)] [] "@foo" := by
  decide

/-- C8 (amended): subject resolution performs no normalization — the raw
input string is used as the login for the direct lookup and as the query
of the fuzzy fallback; the fallback prefers an exact case-insensitive
display-name match, otherwise takes the top search result, and the whole
resolution returns not-found (rather than raising) when both paths fail. -/
theorem claim_C8_resolution_amended (users : List (String × Profile))
    (results : List (String × List Channel)) (q : String) :
    (∀ u, get_user_by_login users q = some u →
      resolve_user users results q = some u) ∧
    (get_user_by_login users q = none →
      ∀ c cs, (search_channels results q).filter
          (fun c2 => lowerStr c2.display_name == lowerStr q) = c :: cs →
        resolve_user users results q =
          some ⟨c.id, c.broadcaster_login, c.display_name, c.thumbnail_url⟩) ∧
    (get_user_by_login users q = none →
      (search_channels results q).filter
          (fun c2 => lowerStr c2.display_name == lowerStr q) = [] →
      resolve_user users results q =
        (search_channels results q).head?.map
          (fun c => ⟨c.id, c.broadcaster_login, c.display_name, c.thumbnail_url⟩)) := by
  refine ⟨?_, ?_, ?_⟩
  · intro u hu
    simp [resolve_user, hu]
  · intro hn c cs hf
    simp [resolve_user, hn, hf]
  · intro hn hf
    cases hh : (search_channels results q).head? with
    | none => simp [resolve_user, hn, hf, hh]
    | some c => simp [resolve_user, hn, hf, hh]

/-- C8 amended witness: a display-name query resolved through the fuzzy
fallback's exact case-insensitive match. -/
theorem claim_C8_resolution_amended_witness :
    resolve_user []
        [("Foo", [⟨"9", "bar", "Bar", none⟩, ⟨"123", "foo", "FOO", some "th"⟩])]
        "Foo" = some ⟨"123", "foo", "FOO", some "th"⟩ :=
  (claim_C8_resolution_amended []
    [("Foo", [⟨"9", "bar", "Bar", none⟩, ⟨"123", "foo", "FOO", some "th"⟩])]
    "Foo").2.1 rfl ⟨"123", "foo", "FOO", some "th"⟩ [] (by decide)

end NoniBot
